import Mathlib

/-!
Shallow embedding of the request-admission rate limiters of the
ibuildwithai-backend repository.

The repository contains three serverless handlers, each with an in-memory
per-IP rate limiter:

* `src/netlify/functions/newsletter-signup.js` — increments the stored count
  first and then compares it against the maximum (`requestData.count++`,
  `ipRequestMap.set`, then `count > MAX_REQUESTS_PER_WINDOW` → 429); an
  explicit `clientIp !== 'unknown'` guard skips limiting for the sentinel;
  a `setInterval` sweep deletes entries with `now - startTime > RATE_LIMIT_WINDOW`.
* `src/unnamed/part_000` — the same limiter plus a trusted-caller bypass:
  `apiKey && apiKey === process.env.VAPI_API_KEY` skips rate limiting.
* `src/netlify/functions/reminder-form.js` — checks the stored count first
  (`count >= maxRequests` → 429 with the store untouched), only increments on
  admitted requests, resets the window when `now - firstRequest < windowMs`
  fails (i.e. when the elapsed time is ≥ the window), and has no sentinel
  guard: the literal `'unknown'` fallback identifier is tracked like any IP.

The JS `Map` is modelled as an association list with JS `Map.set` semantics
(replace in place if the key exists, append otherwise). Timestamps are `Int`
(milliseconds since epoch); counts are `Nat`. A handler outcome is abstracted
to the admission `Decision`: `DENY` is the 429 early return, `ALLOW` means the
request passed rate limiting and the handler proceeds.
-/

namespace RateLimiter

/-- Admission decision of a rate-limit check: `DENY` corresponds to the 429
early return, `ALLOW` to proceeding with the request. -/
inductive Decision where
  | ALLOW : Decision
  | DENY : Decision
deriving Repr, DecidableEq

/-- One per-caller record. In `newsletter-signup.js` and `part_000` the fields
are named `count` and `startTime`; `reminder-form.js` calls the second field
`firstRequest`. Both are the window-start timestamp. -/
structure CallerRecord where
  count : Nat
  startTime : Int
deriving Repr, DecidableEq

/-- The in-memory store (`ipRequestMap` / `rateLimitStore`): a JS `Map` from
client IP to record, modelled as an association list in insertion order. -/
abbrev Store := List (String × CallerRecord)

/-- `Map.get` / `Map.has`: first entry whose key matches. -/
def storeGet : Store → String → Option CallerRecord
  | [], _ => none
  | (k, v) :: rest, ip => if k = ip then some v else storeGet rest ip

/-- `Map.set`: replace in place if the key exists, append otherwise. -/
def storeSet : Store → String → CallerRecord → Store
  | [], ip, r => [(ip, r)]
  | (k, v) :: rest, ip, r =>
      if k = ip then (ip, r) :: rest else (k, v) :: storeSet rest ip r

/-- `RATE_LIMIT_WINDOW = 60 * 60 * 1000` (newsletter-signup.js, part_000). -/
def RATE_LIMIT_WINDOW : Int := 60 * 60 * 1000

/-- `MAX_REQUESTS_PER_WINDOW = 3` (newsletter-signup.js, part_000). -/
def MAX_REQUESTS_PER_WINDOW : Nat := 3

/-- `windowMs = 60 * 60 * 1000` (reminder-form.js). -/
def windowMs : Int := 60 * 60 * 1000

/-- `maxRequests = 3` (reminder-form.js). -/
def maxRequests : Nat := 3

/-- The rate-limiting section of `newsletter-signup.js` (lines 47–71), also
the non-trusted path of `part_000`:

```
if (clientIp !== 'unknown') {
  const requestData = ipRequestMap.get(clientIp) || { count: 0, startTime: now };
  if (now - requestData.startTime > RATE_LIMIT_WINDOW) {
    requestData.count = 1; requestData.startTime = now;
  } else { requestData.count++; }
  ipRequestMap.set(clientIp, requestData);
  if (requestData.count > MAX_REQUESTS_PER_WINDOW) { return 429; }
}
```
-/
def check (store : Store) (clientIp : String) (now : Int) : Decision × Store :=
  if clientIp = "unknown" then (Decision.ALLOW, store)
  else
    let requestData : CallerRecord := (storeGet store clientIp).getD ⟨0, now⟩
    let requestData2 : CallerRecord :=
      if now - requestData.startTime > RATE_LIMIT_WINDOW then
        ⟨1, now⟩
      else
        ⟨requestData.count + 1, requestData.startTime⟩
    let store2 := storeSet store clientIp requestData2
    if requestData2.count > MAX_REQUESTS_PER_WINDOW then (Decision.DENY, store2)
    else (Decision.ALLOW, store2)

/-- The trusted-caller test of `part_000` (lines 48–49):
`apiKey && apiKey === process.env.VAPI_API_KEY`. A missing header or missing
environment variable is `none`; JS truthiness makes an empty-string header
falsy; `string === undefined` is false. -/
def isTrustedCaller (apiKey vapiApiKey : Option String) : Bool :=
  match apiKey, vapiApiKey with
  | some k, some v => k != "" && k == v
  | _, _ => false

/-- The rate-limiting section of `part_000` (lines 47–75): the newsletter
limiter guarded by `!isTrustedCaller`. -/
def checkTrusted (apiKey vapiApiKey : Option String) (store : Store)
    (clientIp : String) (now : Int) : Decision × Store :=
  if isTrustedCaller apiKey vapiApiKey then (Decision.ALLOW, store)
  else check store clientIp now

/-- The rate-limiting section of `reminder-form.js` (lines 48–69):

```
if (rateLimitStore.has(clientIP)) {
  const { count, firstRequest } = rateLimitStore.get(clientIP);
  if (now - firstRequest < windowMs) {
    if (count >= maxRequests) { return 429; }
    rateLimitStore.set(clientIP, { count: count + 1, firstRequest });
  } else {
    rateLimitStore.set(clientIP, { count: 1, firstRequest: now });
  }
} else {
  rateLimitStore.set(clientIP, { count: 1, firstRequest: now });
}
```
Note there is no `'unknown'` guard in this handler. -/
def checkRf (store : Store) (clientIP : String) (now : Int) : Decision × Store :=
  match storeGet store clientIP with
  | some r =>
      if now - r.startTime < windowMs then
        if r.count ≥ maxRequests then (Decision.DENY, store)
        else (Decision.ALLOW, storeSet store clientIP ⟨r.count + 1, r.startTime⟩)
      else (Decision.ALLOW, storeSet store clientIP ⟨1, now⟩)
  | none => (Decision.ALLOW, storeSet store clientIP ⟨1, now⟩)

/-- The `setInterval` cleanup of `newsletter-signup.js` / `part_000`
(lines 9–16): delete every entry with `now - data.startTime > RATE_LIMIT_WINDOW`. -/
def sweep (store : Store) (now : Int) : Store :=
  store.filter fun p => !decide (now - p.2.startTime > RATE_LIMIT_WINDOW)

/-- A store operation: a newsletter-variant check, a reminder-form-variant
check, or a sweep. -/
inductive Op where
  | check (ip : String) (now : Int) : Op
  | checkRf (ip : String) (now : Int) : Op
  | sweep (now : Int) : Op

/-- The store after one operation. -/
def applyOp (s : Store) : Op → Store
  | .check ip now => (check s ip now).2
  | .checkRf ip now => (checkRf s ip now).2
  | .sweep now => sweep s now

/-- The store after a sequence of operations. -/
def run (ops : List Op) (s : Store) : Store :=
  ops.foldl applyOp s

/-- Run a sequence of newsletter-variant checks, collecting the decisions. -/
def runCheck : List (String × Int) → Store → List Decision × Store
  | [], s => ([], s)
  | c :: cs, s =>
      let res := check s c.1 c.2
      let rest := runCheck cs res.2
      (res.1 :: rest.1, rest.2)

/-- Run a sequence of reminder-form checks, collecting the decisions. -/
def runCheckRf : List (String × Int) → Store → List Decision × Store
  | [], s => ([], s)
  | c :: cs, s =>
      let res := checkRf s c.1 c.2
      let rest := runCheckRf cs res.2
      (res.1 :: rest.1, rest.2)

/-- Run a sequence of `part_000` checks with a fixed api key and client IP,
collecting the decisions. -/
def runTrusted (apiKey vapiApiKey : Option String) (ip : String) :
    List Int → Store → List Decision × Store
  | [], s => ([], s)
  | t :: ts, s =>
      let res := checkTrusted apiKey vapiApiKey s ip t
      let rest := runTrusted apiKey vapiApiKey ip ts res.2
      (res.1 :: rest.1, rest.2)

/-! ### Store lemmas -/

theorem storeGet_storeSet_self (s : Store) (ip : String) (r : CallerRecord) :
    storeGet (storeSet s ip r) ip = some r := by
  induction s with
  | nil => simp [storeSet, storeGet]
  | cons hd tl ih =>
      obtain ⟨k, v⟩ := hd
      by_cases h : k = ip
      · simp [storeSet, storeGet, h]
      · simp [storeSet, storeGet, h, ih]

theorem storeGet_storeSet_ne (s : Store) (ip ip' : String) (r : CallerRecord)
    (h : ip' ≠ ip) : storeGet (storeSet s ip r) ip' = storeGet s ip' := by
  induction s with
  | nil => simp [storeSet, storeGet, Ne.symm h]
  | cons hd tl ih =>
      obtain ⟨k, v⟩ := hd
      by_cases hk : k = ip
      · subst hk
        simp [storeSet, storeGet, Ne.symm h]
      · simp [storeSet, storeGet, hk, ih]

theorem mem_storeSet (s : Store) (ip : String) (r : CallerRecord)
    (e : String × CallerRecord) (h : e ∈ storeSet s ip r) :
    e = (ip, r) ∨ e ∈ s := by
  induction s with
  | nil =>
      simp only [storeSet, List.mem_singleton] at h
      exact Or.inl h
  | cons hd tl ih =>
      obtain ⟨k, v⟩ := hd
      by_cases hk : k = ip
      · simp only [storeSet, if_pos hk, List.mem_cons] at h
        rcases h with h | h
        · exact Or.inl h
        · exact Or.inr (List.mem_cons_of_mem _ h)
      · simp only [storeSet, if_neg hk, List.mem_cons] at h
        rcases h with h | h
        · exact Or.inr (by simp [h])
        · rcases ih h with h' | h'
          · exact Or.inl h'
          · exact Or.inr (List.mem_cons_of_mem _ h')

theorem mem_keys_storeSet (s : Store) (ip : String) (r : CallerRecord)
    (a : String) (h : a ∈ (storeSet s ip r).map Prod.fst) :
    a = ip ∨ a ∈ s.map Prod.fst := by
  rcases List.mem_map.mp h with ⟨e, he, rfl⟩
  rcases mem_storeSet s ip r e he with h' | h'
  · exact Or.inl (by simp [h'])
  · exact Or.inr (List.mem_map_of_mem _ h')

theorem nodup_keys_storeSet (s : Store) (ip : String) (r : CallerRecord)
    (h : (s.map Prod.fst).Nodup) : ((storeSet s ip r).map Prod.fst).Nodup := by
  induction s with
  | nil => simp [storeSet]
  | cons hd tl ih =>
      obtain ⟨k, v⟩ := hd
      simp only [List.map_cons, List.nodup_cons] at h
      by_cases hk : k = ip
      · subst hk
        simpa [storeSet, List.nodup_cons] using h
      · simp only [storeSet, if_neg hk, List.map_cons, List.nodup_cons]
        refine ⟨?_, ih h.2⟩
        intro hmem
        rcases mem_keys_storeSet tl ip r k hmem with h' | h'
        · exact hk h'
        · exact h.1 h'

/-! ### Shape of the store after one check -/

theorem check_store_cases (s : Store) (ip : String) (now : Int) :
    (check s ip now).2 = s ∨
      ∃ r2 : CallerRecord, 1 ≤ r2.count ∧ (check s ip now).2 = storeSet s ip r2 := by
  by_cases hip : ip = "unknown"
  · exact Or.inl (by simp [check, hip])
  · right
    by_cases hw : now - ((storeGet s ip).getD ⟨0, now⟩).startTime > RATE_LIMIT_WINDOW
    · exact ⟨⟨1, now⟩, le_refl 1, by simp [check, hip, hw, apply_ite Prod.snd]⟩
    · exact ⟨⟨((storeGet s ip).getD ⟨0, now⟩).count + 1,
          ((storeGet s ip).getD ⟨0, now⟩).startTime⟩,
        Nat.succ_le_succ (Nat.zero_le _),
        by simp [check, hip, hw, apply_ite Prod.snd]⟩

theorem checkRf_store_cases (s : Store) (ip : String) (now : Int) :
    (checkRf s ip now).2 = s ∨
      ∃ r2 : CallerRecord, 1 ≤ r2.count ∧ (checkRf s ip now).2 = storeSet s ip r2 := by
  rcases hget : storeGet s ip with _ | r
  · exact Or.inr ⟨⟨1, now⟩, le_refl 1, by simp [checkRf, hget]⟩
  · by_cases hw : now - r.startTime < windowMs
    · by_cases hc : r.count ≥ maxRequests
      · exact Or.inl (by simp [checkRf, hget, hw, hc])
      · exact Or.inr ⟨⟨r.count + 1, r.startTime⟩,
          Nat.succ_le_succ (Nat.zero_le _), by simp [checkRf, hget, hw, hc]⟩
    · exact Or.inr ⟨⟨1, now⟩, le_refl 1, by simp [checkRf, hget, hw]⟩

/-! ### Store invariants -/

/-- Well-formedness of the store: keys are pairwise distinct (a JS `Map` has
at most one entry per key) and every stored record has `count ≥ 1`. -/
def wfStore (s : Store) : Prop :=
  (s.map Prod.fst).Nodup ∧ ∀ e ∈ s, 1 ≤ e.2.count

theorem wfStore_storeSet (s : Store) (ip : String) (r : CallerRecord)
    (hs : wfStore s) (hr : 1 ≤ r.count) : wfStore (storeSet s ip r) := by
  refine ⟨nodup_keys_storeSet s ip r hs.1, ?_⟩
  intro e he
  rcases mem_storeSet s ip r e he with h | h
  · subst h; exact hr
  · exact hs.2 e h

theorem wfStore_sweep (s : Store) (now : Int) (hs : wfStore s) :
    wfStore (sweep s now) := by
  refine ⟨List.Nodup.sublist (List.Sublist.map Prod.fst (List.filter_sublist s)) hs.1, ?_⟩
  intro e he
  exact hs.2 e (List.mem_of_mem_filter he)

theorem wfStore_applyOp (s : Store) (op : Op) (hs : wfStore s) :
    wfStore (applyOp s op) := by
  cases op with
  | check ip now =>
      rcases check_store_cases s ip now with h | ⟨r2, hr2, h⟩
      · simpa [applyOp, h] using hs
      · simpa [applyOp, h] using wfStore_storeSet s ip r2 hs hr2
  | checkRf ip now =>
      rcases checkRf_store_cases s ip now with h | ⟨r2, hr2, h⟩
      · simpa [applyOp, h] using hs
      · simpa [applyOp, h] using wfStore_storeSet s ip r2 hs hr2
  | sweep now => simpa [applyOp] using wfStore_sweep s now hs

theorem wfStore_run (ops : List Op) (s : Store) (hs : wfStore s) :
    wfStore (run ops s) := by
  induction ops generalizing s with
  | nil => simpa [run] using hs
  | cons op ops ih =>
      simpa [run, List.foldl_cons] using ih (applyOp s op) (wfStore_applyOp s op hs)

theorem checkRf_preserves_le_max (s : Store) (ip : String) (now : Int)
    (hs : ∀ e ∈ s, e.2.count ≤ maxRequests) :
    ∀ e ∈ (checkRf s ip now).2, e.2.count ≤ maxRequests := by
  intro e he
  rcases hget : storeGet s ip with _ | r
  · simp only [checkRf, hget] at he
    rcases mem_storeSet s ip ⟨1, now⟩ e he with h | h
    · subst h
      show (1 : Nat) ≤ maxRequests
      decide
    · exact hs e h
  · by_cases hw : now - r.startTime < windowMs
    · by_cases hc : r.count ≥ maxRequests
      · simp only [checkRf, hget, if_pos hw, if_pos hc] at he
        exact hs e he
      · simp only [checkRf, hget, if_pos hw, if_neg hc] at he
        rcases mem_storeSet s ip ⟨r.count + 1, r.startTime⟩ e he with h | h
        · subst h; exact Nat.succ_le_of_lt (Nat.lt_of_not_le hc)
        · exact hs e h
    · simp only [checkRf, hget, if_neg hw] at he
      rcases mem_storeSet s ip ⟨1, now⟩ e he with h | h
      · subst h
        show (1 : Nat) ≤ maxRequests
        decide
      · exact hs e h

theorem runCheckRf_le_max (calls : List (String × Int)) (s : Store)
    (hs : ∀ e ∈ s, e.2.count ≤ maxRequests) :
    ∀ e ∈ (runCheckRf calls s).2, e.2.count ≤ maxRequests := by
  induction calls generalizing s with
  | nil => simpa [runCheckRf] using hs
  | cons c cs ih =>
      simpa [runCheckRf] using
        ih (checkRf s c.1 c.2).2 (checkRf_preserves_le_max s c.1 c.2 hs)

/-! ### Claim theorems -/

/-- C1 counterexample: in the reminder-form limiter a denied check does NOT
increment the stored count. With an in-window record at count 3, the call
returns DENY and the store is completely unchanged (count stays 3, not 4),
contradicting the claim that every in-window check increments the record and
that a denial stores the incremented count. -/
theorem checkRf_deny_not_incremented :
    (checkRf [("1.2.3.4", ⟨3, 0⟩)] "1.2.3.4" 100).1 = Decision.DENY ∧
    (checkRf [("1.2.3.4", ⟨3, 0⟩)] "1.2.3.4" 100).2 = [("1.2.3.4", ⟨3, 0⟩)] := by
  decide

/-- C1 (amended, newsletter-signup / part_000 limiter): for an existing
in-window record, `check` stores the incremented count (which can exceed
`MAX_REQUESTS_PER_WINDOW`), and returns DENY exactly when the incremented
count exceeds `MAX_REQUESTS_PER_WINDOW` (3). -/
theorem check_in_window_increments (s : Store) (ip : String) (now : Int)
    (r : CallerRecord) (h1 : ip ≠ "unknown") (h2 : storeGet s ip = some r)
    (h3 : now - r.startTime ≤ RATE_LIMIT_WINDOW) :
    (check s ip now).2 = storeSet s ip ⟨r.count + 1, r.startTime⟩ ∧
    ((check s ip now).1 = Decision.DENY ↔ MAX_REQUESTS_PER_WINDOW < r.count + 1) := by
  have hw : ¬ now - r.startTime > RATE_LIMIT_WINDOW := not_lt.mpr h3
  constructor
  · simp [check, h1, h2, hw, apply_ite Prod.snd]
  · simp only [check, if_neg h1, h2, Option.getD_some, if_neg hw]
    by_cases hc : r.count + 1 > MAX_REQUESTS_PER_WINDOW
    · simp [hc]
    · simp [hc, not_lt.mp hc]

/-- C1 witness: a record at count 3 within the window, checked again: the
store keeps count 4 (above the maximum) and the decision is DENY. -/
theorem check_in_window_increments_witness :
    (check [("1.2.3.4", ⟨3, 0⟩)] "1.2.3.4" 100).2
        = storeSet [("1.2.3.4", ⟨3, 0⟩)] "1.2.3.4" ⟨4, 0⟩ ∧
    ((check [("1.2.3.4", ⟨3, 0⟩)] "1.2.3.4" 100).1 = Decision.DENY ↔
        MAX_REQUESTS_PER_WINDOW < 4) :=
  check_in_window_increments [("1.2.3.4", ⟨3, 0⟩)] "1.2.3.4" 100 ⟨3, 0⟩
    (by decide) (by decide) (by decide)

/-- C2 counterexample: the reminder-form limiter has no sentinel guard. Four
calls with identifier `"unknown"` inside one window produce
ALLOW, ALLOW, ALLOW, DENY — the sentinel IS denied — and already the first
call creates a record for `"unknown"`, contradicting "the result is ALLOW and
no record for that identifier is created or mutated". -/
theorem checkRf_unknown_denied :
    (runCheckRf [("unknown", 0), ("unknown", 1), ("unknown", 2), ("unknown", 3)] []).1
        = [Decision.ALLOW, Decision.ALLOW, Decision.ALLOW, Decision.DENY] ∧
    (checkRf [] "unknown" 0).2 = [("unknown", ⟨1, 0⟩)] := by
  decide

/-- C2 (amended, newsletter-signup / part_000 limiter): a check with the
sentinel identifier `"unknown"` always returns ALLOW and leaves the store
exactly as it was, so the sentinel is never denied and never tracked there.
(The reminder-form limiter, by contrast, tracks and can deny the sentinel.) -/
theorem check_unknown_allows (s : Store) (now : Int) :
    check s "unknown" now = (Decision.ALLOW, s) := by
  simp [check]

/-- C3 counterexample: in the reminder-form limiter, at
`now - windowStart` exactly equal to the window duration the record is NOT
treated as in-window: the window is reset (`count = 1, firstRequest = now`)
and the call returns ALLOW, even though `now - windowStart > windowMs` fails —
contradicting both the "exactly when strictly greater" reset condition and
"at equality the record is still treated as in-window". -/
theorem checkRf_boundary_reset :
    ¬ ((3600000 : Int) - 0 > windowMs) ∧
    checkRf [("a", ⟨3, 0⟩)] "a" 3600000 = (Decision.ALLOW, [("a", ⟨1, 3600000⟩)]) := by
  decide

/-- C3 (amended): in the newsletter-signup / part_000 limiter an existing
record is reset (`count = 1, windowStart = now`, ALLOW) exactly when
`now - windowStart > RATE_LIMIT_WINDOW`, regardless of the prior count, and at
`now - windowStart ≤ RATE_LIMIT_WINDOW` (equality included) the record is
still in-window (the count is incremented in place); in the reminder-form
limiter the reset instead happens whenever `now - windowStart ≥ windowMs`,
so at equality the record is reset rather than in-window. -/
theorem check_reset_boundary (s : Store) (ip : String) (now : Int)
    (r : CallerRecord) (h1 : ip ≠ "unknown") (h2 : storeGet s ip = some r) :
    (RATE_LIMIT_WINDOW < now - r.startTime →
        check s ip now = (Decision.ALLOW, storeSet s ip ⟨1, now⟩)) ∧
    (now - r.startTime ≤ RATE_LIMIT_WINDOW →
        (check s ip now).2 = storeSet s ip ⟨r.count + 1, r.startTime⟩) ∧
    (windowMs ≤ now - r.startTime →
        checkRf s ip now = (Decision.ALLOW, storeSet s ip ⟨1, now⟩)) := by
  refine ⟨?_, ?_, ?_⟩
  · intro hw
    simp [check, h1, h2, hw, MAX_REQUESTS_PER_WINDOW]
  · intro hw
    simp [check, h1, h2, not_lt.mpr hw, apply_ite Prod.snd]
  · intro hw
    simp [checkRf, h2, not_lt.mpr hw]

/-- C3 witness: a record with window start 0 and count 7. At `now = 3600001`
(just past the window) `check` resets it to count 1 and allows; at
`now = 3600000` (exactly the window) `check` still increments in place to
count 8; at `now = 3600000` `checkRf` already resets. -/
theorem check_reset_boundary_witness :
    check [("a", ⟨7, 0⟩)] "a" 3600001
        = (Decision.ALLOW, storeSet [("a", ⟨7, 0⟩)] "a" ⟨1, 3600001⟩) ∧
    (check [("a", ⟨7, 0⟩)] "a" 3600000).2 = storeSet [("a", ⟨7, 0⟩)] "a" ⟨8, 0⟩ ∧
    checkRf [("a", ⟨7, 0⟩)] "a" 3600000
        = (Decision.ALLOW, storeSet [("a", ⟨7, 0⟩)] "a" ⟨1, 3600000⟩) :=
  ⟨(check_reset_boundary [("a", ⟨7, 0⟩)] "a" 3600001 ⟨7, 0⟩
        (by decide) (by decide)).1 (by decide),
   (check_reset_boundary [("a", ⟨7, 0⟩)] "a" 3600000 ⟨7, 0⟩
        (by decide) (by decide)).2.1 (by decide),
   (check_reset_boundary [("a", ⟨7, 0⟩)] "a" 3600000 ⟨7, 0⟩
        (by decide) (by decide)).2.2 (by decide)⟩

/-- C4: from the empty store, identifier "A" checked at t = 0, 100, 200, 300
gets ALLOW, ALLOW, ALLOW, DENY, and with the fourth call at t = 3700000
instead it gets ALLOW (window reset) — in both the newsletter-signup /
part_000 limiter and the reminder-form limiter. -/
theorem scenario_decisions :
    (runCheck [("A", 0), ("A", 100), ("A", 200), ("A", 300)] []).1
        = [Decision.ALLOW, Decision.ALLOW, Decision.ALLOW, Decision.DENY] ∧
    (runCheck [("A", 0), ("A", 100), ("A", 200), ("A", 3700000)] []).1
        = [Decision.ALLOW, Decision.ALLOW, Decision.ALLOW, Decision.ALLOW] ∧
    (runCheckRf [("A", 0), ("A", 100), ("A", 200), ("A", 300)] []).1
        = [Decision.ALLOW, Decision.ALLOW, Decision.ALLOW, Decision.DENY] ∧
    (runCheckRf [("A", 0), ("A", 100), ("A", 200), ("A", 3700000)] []).1
        = [Decision.ALLOW, Decision.ALLOW, Decision.ALLOW, Decision.ALLOW] := by
  decide

/-- C6: starting from the empty store, after any sequence of check (either
variant) and sweep operations the store has pairwise-distinct identifiers
(at most one record per identifier) and every record has count ≥ 1. -/
theorem run_store_invariant (ops : List Op) :
    ((run ops []).map Prod.fst).Nodup ∧ ∀ e ∈ run ops [], 1 ≤ e.2.count :=
  wfStore_run ops [] ⟨List.nodup_nil, by intro e he; cases he⟩

/-- C6 witness: after one check from the empty store, the single stored
record has count ≥ 1. -/
theorem run_store_invariant_witness :
    1 ≤ (("1.2.3.4", (⟨1, 0⟩ : CallerRecord))).2.count :=
  (run_store_invariant [Op.check "1.2.3.4" 0]).2 ("1.2.3.4", ⟨1, 0⟩) (by decide)

/-- C5: for every store, time and entry, the entry survives the sweep exactly
when it was in the store and its window has not expired
(`now - startTime > RATE_LIMIT_WINDOW` fails); surviving entries are the very
same pairs (count and window start unchanged). -/
theorem sweep_removes_exactly_expired (s : Store) (now : Int)
    (e : String × CallerRecord) :
    e ∈ sweep s now ↔ e ∈ s ∧ ¬ now - e.2.startTime > RATE_LIMIT_WINDOW := by
  simp [sweep, List.mem_filter]

/-- C7: for a non-sentinel identifier with no record in the store, both check
variants create a record with count = 1 and windowStart = now and return
ALLOW. -/
theorem check_absent_creates (s : Store) (ip : String) (now : Int)
    (h1 : ip ≠ "unknown") (h2 : storeGet s ip = none) :
    check s ip now = (Decision.ALLOW, storeSet s ip ⟨1, now⟩) ∧
    storeGet (check s ip now).2 ip = some ⟨1, now⟩ ∧
    checkRf s ip now = (Decision.ALLOW, storeSet s ip ⟨1, now⟩) := by
  have h0 : ¬ now - now > RATE_LIMIT_WINDOW := by
    rw [sub_self]; decide
  have hc : check s ip now = (Decision.ALLOW, storeSet s ip ⟨1, now⟩) := by
    simp [check, h1, h2, h0, MAX_REQUESTS_PER_WINDOW]
  refine ⟨hc, ?_, ?_⟩
  · rw [hc]
    exact storeGet_storeSet_self s ip ⟨1, now⟩
  · simp [checkRf, h2]

/-- C7 witness: an identifier never seen before is admitted and recorded with
count 1 by both limiters. -/
theorem check_absent_creates_witness :
    check [] "9.9.9.9" 42 = (Decision.ALLOW, storeSet [] "9.9.9.9" ⟨1, 42⟩) ∧
    storeGet (check [] "9.9.9.9" 42).2 "9.9.9.9" = some ⟨1, 42⟩ ∧
    checkRf [] "9.9.9.9" 42 = (Decision.ALLOW, storeSet [] "9.9.9.9" ⟨1, 42⟩) :=
  check_absent_creates [] "9.9.9.9" 42 (by decide) (by decide)

/-- C8 (frame): a check for one identifier leaves the record of every other
identifier unchanged, in both check variants; beyond the decision and the
caller's own entry nothing is produced or modified. -/
theorem check_frame (s : Store) (ip ip' : String) (now : Int) (h : ip' ≠ ip) :
    storeGet (check s ip now).2 ip' = storeGet s ip' ∧
    storeGet (checkRf s ip now).2 ip' = storeGet s ip' := by
  constructor
  · rcases check_store_cases s ip now with hcs | ⟨r2, _, hcs⟩
    · rw [hcs]
    · rw [hcs]
      exact storeGet_storeSet_ne s ip ip' r2 h
  · rcases checkRf_store_cases s ip now with hcs | ⟨r2, _, hcs⟩
    · rw [hcs]
    · rw [hcs]
      exact storeGet_storeSet_ne s ip ip' r2 h

/-- C8 witness: a check for "a" leaves the record of "b" exactly as it was. -/
theorem check_frame_witness :
    storeGet (check [("b", ⟨2, 5⟩)] "a" 10).2 "b" = storeGet [("b", ⟨2, 5⟩)] "b" ∧
    storeGet (checkRf [("b", ⟨2, 5⟩)] "a" 10).2 "b" = storeGet [("b", ⟨2, 5⟩)] "b" :=
  check_frame [("b", ⟨2, 5⟩)] "a" "b" 10 (by decide)

/-- C9: in `part_000`, when the x-api-key header equals the configured
(non-empty) VAPI_API_KEY value, any number of requests all bypass rate
limiting: every decision is ALLOW (never a 429) and the store — in particular
the client IP's record — is left exactly as it was. -/
theorem trusted_caller_bypasses (k : String) (hk : k ≠ "") (ip : String)
    (times : List Int) (s : Store) :
    runTrusted (some k) (some k) ip times s
      = (times.map fun _ => Decision.ALLOW, s) := by
  have ht : isTrustedCaller (some k) (some k) = true := by
    simp [isTrustedCaller, hk]
  induction times generalizing s with
  | nil => simp [runTrusted]
  | cons t ts ih => simp [runTrusted, checkTrusted, ht, ih]

/-- C9 witness: five calls in a row with the matching api key are all
allowed and leave the (empty) store untouched. -/
theorem trusted_caller_bypasses_witness :
    runTrusted (some "vapi-key") (some "vapi-key") "7.7.7.7" [0, 1, 2, 3, 4] []
      = ([0, 1, 2, 3, 4].map fun _ => Decision.ALLOW, ([] : Store)) :=
  trusted_caller_bypasses "vapi-key" (by decide) "7.7.7.7" [0, 1, 2, 3, 4] []

/-- C10: in the reminder-form limiter, starting from the empty store every
stored record always has count ≤ maxRequests (3), and a check that returns
DENY leaves the store completely unchanged. -/
theorem rf_store_bounded :
    (∀ calls, ∀ e ∈ (runCheckRf calls []).2, e.2.count ≤ maxRequests) ∧
    (∀ s ip now, (checkRf s ip now).1 = Decision.DENY → (checkRf s ip now).2 = s) := by
  constructor
  · intro calls e he
    exact runCheckRf_le_max calls [] (by intro e' he'; cases he') e he
  · intro s ip now hd
    rcases hget : storeGet s ip with _ | r
    · simp [checkRf, hget] at hd
    · by_cases hw : now - r.startTime < windowMs
      · by_cases hc : r.count ≥ maxRequests
        · simp [checkRf, hget, hw, hc]
        · simp [checkRf, hget, hw, hc] at hd
      · simp [checkRf, hget, hw] at hd

/-- C10 witness: after one reminder-form check the stored count is within the
limit, and a denied check at count 3 leaves the store as it was. -/
theorem rf_store_bounded_witness :
    (("a", (⟨1, 0⟩ : CallerRecord))).2.count ≤ maxRequests ∧
    (checkRf [("a", ⟨3, 0⟩)] "a" 100).2 = [("a", ⟨3, 0⟩)] :=
  ⟨rf_store_bounded.1 [("a", 0)] ("a", ⟨1, 0⟩) (by decide),
   rf_store_bounded.2 [("a", ⟨3, 0⟩)] "a" 100 (by decide)⟩

end RateLimiter
